import Mathlib

/-!
Verification of the energy-telemetry reporting programs (TaskD, TaskE, TaskF).

The Python sources are shallowly embedded: floats become exact rationals
(`ℚ`), `datetime`/`date` values become explicit record types, file contents
become `Option String` (none = the file is absent), and fallible code
(division by zero, out-of-range indexing) returns `Option`.
-/

attribute [local semireducible] Rat.add Rat.mul Rat.sub Rat.inv Rat.ofScientific

/-- A calendar date, as in Python `datetime.date` (always compared
field-lexicographically, year first). -/
structure Date where
  year : Nat
  month : Nat
  day : Nat
deriving DecidableEq

/-- A timestamp at minute resolution, as in Python `datetime.datetime`
(seconds are never inspected by the programs). -/
structure Timestamp where
  year : Nat
  month : Nat
  day : Nat
  hour : Nat
  minute : Nat
deriving DecidableEq

/-- Python `datetime.date()`: drop the time-of-day. -/
def Timestamp.date (t : Timestamp) : Date :=
  ⟨t.year, t.month, t.day⟩

/-- Python `date <= date` comparison: lexicographic on (year, month, day). -/
def dle (a b : Date) : Bool :=
  if a.year ≠ b.year then decide (a.year < b.year)
  else if a.month ≠ b.month then decide (a.month < b.month)
  else decide (a.day ≤ b.day)

theorem dle_iff (a b : Date) :
    dle a b = true ↔
      a.year < b.year ∨ (a.year = b.year ∧
        (a.month < b.month ∨ (a.month = b.month ∧ a.day ≤ b.day))) := by
  simp only [dle]
  split_ifs <;> simp_all

theorem dle_refl (a : Date) : dle a a = true := by
  rw [dle_iff]; omega

theorem dle_antisymm {a b : Date} (h1 : dle a b = true) (h2 : dle b a = true) :
    a = b := by
  rw [dle_iff] at h1 h2
  cases a; cases b
  simp_all only [Date.mk.injEq]
  omega

theorem dle_total (a b : Date) : dle a b = true ∨ dle b a = true := by
  rw [dle_iff, dle_iff]; omega

theorem dle_trans {a b c : Date} (h1 : dle a b = true) (h2 : dle b c = true) :
    dle a c = true := by
  rw [dle_iff] at h1 h2 ⊢; omega

/-- Decimal digits of `n`, most significant first, as Python `str(int)`
renders a non-negative integer.  Structural recursion on a fuel argument so
that the kernel can evaluate it. -/
def natDigitsAux : Nat → Nat → List Char
  | 0, _ => []
  | _fuel + 1, n =>
    if n < 10 then [Char.ofNat (48 + n)]
    else natDigitsAux _fuel (n / 10) ++ [Char.ofNat (48 + n % 10)]

/-- Python `str(n)` for a non-negative integer `n`. -/
def natToStr (n : Nat) : String :=
  ⟨natDigitsAux (n + 1) n⟩

/-- Left-pad a string with `'0'` up to width `w` (Python `%d`, `%m`, `%Y`
zero-padding in `strftime`). -/
def padZeros (w : Nat) (s : String) : String :=
  ⟨List.replicate (w - s.length) '0'⟩ ++ s

/-- Python `f"{s:<w}"`: pad on the right with spaces to width `w`. -/
def padR (s : String) (w : Nat) : String :=
  s ++ ⟨List.replicate (w - s.length) ' '⟩

/-- Python `f"{s:>w}"`: pad on the left with spaces to width `w`. -/
def padL (s : String) (w : Nat) : String :=
  ⟨List.replicate (w - s.length) ' '⟩ ++ s

/-- Round a rational to the nearest integer, ties to even — the rounding
used by Python's fixed-point float formatting. -/
def roundHalfEven (q : ℚ) : ℤ :=
  let f := ⌊q⌋
  let r := q - f
  if r < 1 / 2 then f
  else if 1 / 2 < r then f + 1
  else if f % 2 = 0 then f else f + 1

/-- Python `f"{x:.2f}".replace(".", ",")`: two fractional digits, ties to
even, `','` as the decimal marker.  Shared by TaskD `print_daily_totals`
and TaskE `write_summaries`. -/
def format2 (q : ℚ) : String :=
  let n := (roundHalfEven (|q| * 100)).toNat
  (if q < 0 then "-" else "") ++ natToStr (n / 100) ++ "," ++
    padZeros 2 (natToStr (n % 100))

/-- Days since 1970-01-01 of a civil date (standard civil-from-days
algorithm); used to recover Python's `date.weekday()`. -/
def daysFromCivil (d : Date) : Int :=
  let y : Int := if d.month ≤ 2 then (d.year : Int) - 1 else (d.year : Int)
  let m : Int := (d.month : Int)
  let era : Int := (if 0 ≤ y then y else y - 399) / 400
  let yoe : Int := y - era * 400
  let doy : Int := (153 * (if 2 < m then m - 3 else m + 9) + 2) / 5 + (d.day : Int) - 1
  let doe : Int := yoe * 365 + yoe / 4 - yoe / 100 + doy
  era * 146097 + doe - 719468

/-- Python `date.weekday()`: Monday = 0 … Sunday = 6. -/
def Date.weekday (d : Date) : Nat :=
  ((daysFromCivil d + 3) % 7).toNat

/-- Python `date.strftime("%d.%m.%Y")`. -/
def formatDate (d : Date) : String :=
  padZeros 2 (natToStr d.day) ++ "." ++ padZeros 2 (natToStr d.month) ++ "." ++
    padZeros 4 (natToStr d.year)

/-- The `WEEKDAYS` lookup table of TaskD/TaskE. -/
def WEEKDAYS : List String :=
  ["Monday", "Tuesday", "Wednesday", "Thursday", "Friday", "Saturday", "Sunday"]

/-! ## TaskF (`task_f.py`): period reports over 3-channel samples -/

/-- A converted CSV row of TaskF (`convert_data`): timestamp plus
consumption, production and average temperature (floats modelled as `ℚ`). -/
structure FRow where
  timestamp : Timestamp
  consumption : ℚ
  production : ℚ
  average_temp : ℚ
deriving DecidableEq

/-- The test `row["timestamp"].hour == 0 and row["timestamp"].minute == 0`
of the three summary loops. -/
def isMidnight (r : FRow) : Bool :=
  decide (r.timestamp.hour = 0) && decide (r.timestamp.minute = 0)

/-- The selection test of `daily_summary`:
`row["timestamp"].date() >= startdate and row["timestamp"].date() <= enddate`. -/
def inRange (startdate enddate : Date) (r : FRow) : Bool :=
  dle startdate r.timestamp.date && dle r.timestamp.date enddate

/-- The selection test of `monthly_summary`:
`row["timestamp"].date().month == month`. -/
def monthIs (month : Nat) (r : FRow) : Bool :=
  decide (r.timestamp.date.month = month)

/-- The running accumulator of the three summary loops: `total_cons`,
`total_prod`, `temp_sum`, `day_count`. -/
structure AccState where
  total_cons : ℚ
  total_prod : ℚ
  temp_sum : ℚ
  day_count : Nat
deriving DecidableEq

/-- One iteration of the summary loop body; the three summary functions
run the same body and differ only in the selection predicate `p`. -/
def accStep (p : FRow → Bool) (s : AccState) (r : FRow) : AccState :=
  if p r then
    { total_cons := s.total_cons + r.consumption
      total_prod := s.total_prod + r.production
      temp_sum := if isMidnight r then s.temp_sum + r.average_temp else s.temp_sum
      day_count := if isMidnight r then s.day_count + 1 else s.day_count }
  else s

/-- The whole summary loop over `data_list`, started from zeroes. -/
def accumulate (p : FRow → Bool) (data_list : List FRow) : AccState :=
  data_list.foldl (accStep p) ⟨0, 0, 0, 0⟩

/-- The numeric content of a period report: the three values rendered by
`daily_summary` / `monthly_summary`. -/
structure Summary3 where
  total_cons : ℚ
  total_prod : ℚ
  avg_temp : ℚ
deriving DecidableEq

/-- TaskF `daily_summary`.  `none` models the uncaught `ZeroDivisionError`
raised by `temp_sum / day_count` when no selected sample is at midnight. -/
def daily_summary (startdate enddate : Date) (data_list : List FRow) :
    Option Summary3 :=
  let a := accumulate (inRange startdate enddate) data_list
  if a.day_count = 0 then none
  else some ⟨a.total_cons, a.total_prod, a.temp_sum / (a.day_count : ℚ)⟩

/-- TaskF `monthly_summary`.  `none` models the `ZeroDivisionError` when no
selected sample is at midnight, and the `IndexError` of `MONTHS[month]`
for an out-of-range month (the menu only ever passes 1–12). -/
def monthly_summary (month : Nat) (data_list : List FRow) : Option Summary3 :=
  let a := accumulate (monthIs month) data_list
  if a.day_count = 0 then none
  else if month ≤ 12 then
    some ⟨a.total_cons, a.total_prod, a.temp_sum / (a.day_count : ℚ)⟩
  else none

/-- The numeric content of the yearly report, including the year label. -/
structure YSummary where
  year : Nat
  total_cons : ℚ
  total_prod : ℚ
  avg_temp : ℚ
deriving DecidableEq

/-- TaskF `yearly_summary`.  `none` models the `IndexError` of
`data_list[0]` on the empty list and the `ZeroDivisionError` when no
sample at all is at midnight; the year label comes from the first row. -/
def yearly_summary (data_list : List FRow) : Option YSummary :=
  match data_list with
  | [] => none
  | first :: _ =>
    let a := accumulate (fun _ => true) data_list
    if a.day_count = 0 then none
    else some ⟨first.timestamp.date.year, a.total_cons, a.total_prod,
      a.temp_sum / (a.day_count : ℚ)⟩

theorem foldl_accStep (p : FRow → Bool) (data : List FRow) (s : AccState) :
    data.foldl (accStep p) s =
      ⟨s.total_cons + ((data.filter p).map (·.consumption)).sum,
       s.total_prod + ((data.filter p).map (·.production)).sum,
       s.temp_sum + (((data.filter p).filter isMidnight).map (·.average_temp)).sum,
       s.day_count + ((data.filter p).filter isMidnight).length⟩ := by
  induction data generalizing s with
  | nil => simp
  | cons r rest ih =>
    simp only [List.foldl_cons, ih, List.filter_cons]
    by_cases hp : p r <;> by_cases hm : isMidnight r <;>
      simp [accStep, hp, hm, List.filter_cons, add_assoc] <;> omega

theorem accumulate_spec (p : FRow → Bool) (data : List FRow) :
    accumulate p data =
      ⟨((data.filter p).map (·.consumption)).sum,
       ((data.filter p).map (·.production)).sum,
       (((data.filter p).filter isMidnight).map (·.average_temp)).sum,
       ((data.filter p).filter isMidnight).length⟩ := by
  simpa using foldl_accStep p data ⟨0, 0, 0, 0⟩

/-- Claim C3: for every period report (range, month, or year) whose selected
samples contain zero midnight-timestamped rows, computing the once-daily
(temperature) average surfaces an explicit error condition (here: the report
computation returns `none`, modelling the uncaught `ZeroDivisionError` /
`IndexError`); it never silently returns `0` or a NaN-like value in the
average field. -/
theorem period_reports_error_on_zero_midnight :
    (∀ (s e : Date) (data : List FRow),
        ((data.filter (inRange s e)).filter isMidnight).length = 0 →
        daily_summary s e data = none)
  ∧ (∀ (m : Nat) (data : List FRow),
        ((data.filter (monthIs m)).filter isMidnight).length = 0 →
        monthly_summary m data = none)
  ∧ (∀ data : List FRow,
        (data.filter isMidnight).length = 0 →
        yearly_summary data = none) := by
  refine ⟨?_, ?_, ?_⟩
  · intro s e data h
    simp only [daily_summary, accumulate_spec, h]
    rfl
  · intro m data h
    simp only [monthly_summary, accumulate_spec, h]
    rfl
  · intro data h
    cases data with
    | nil => rfl
    | cons r rest =>
      simp only [yearly_summary, accumulate_spec, List.filter_true, h]
      rfl

theorem period_reports_error_on_zero_midnight_witness :
    daily_summary ⟨2025, 1, 1⟩ ⟨2025, 12, 31⟩
        [⟨⟨2025, 1, 1, 12, 0⟩, 1, 2, 3⟩] = none
  ∧ monthly_summary 1 [⟨⟨2025, 1, 1, 12, 0⟩, 1, 2, 3⟩] = none
  ∧ yearly_summary [⟨⟨2025, 1, 1, 12, 0⟩, 1, 2, 3⟩] = none :=
  ⟨period_reports_error_on_zero_midnight.1 _ _ _ (by decide),
   period_reports_error_on_zero_midnight.2.1 _ _ (by decide),
   period_reports_error_on_zero_midnight.2.2 _ (by decide)⟩

/-- Claim C7: the range report selects exactly the samples whose date `d`
satisfies `start <= d <= end` (inclusive bounds, via `inRange`); its total
consumption and total production are the sums of those fields over the
selected samples, and its average temperature is the sum of temperature
over selected samples taken at exactly midnight divided by the count of
those midnight samples (not by the number of days in the range). -/
theorem daily_summary_correct (s e : Date) (data : List FRow) (out : Summary3)
    (h : daily_summary s e data = some out) :
    out.total_cons = ((data.filter (inRange s e)).map (·.consumption)).sum
  ∧ out.total_prod = ((data.filter (inRange s e)).map (·.production)).sum
  ∧ out.avg_temp =
      (((data.filter (inRange s e)).filter isMidnight).map (·.average_temp)).sum
        / ((((data.filter (inRange s e)).filter isMidnight).length : ℚ)) := by
  simp only [daily_summary, accumulate_spec] at h
  split at h
  · exact Option.noConfusion h
  · rw [Option.some.injEq] at h
    subst h
    exact ⟨rfl, rfl, rfl⟩

/-- The two-sample data set from the spec's range-report example. -/
def rangeExampleRows : List FRow :=
  [⟨⟨2025, 1, 1, 0, 0⟩, 1, 5, -2⟩, ⟨⟨2025, 1, 1, 12, 0⟩, 2, 7, 99⟩]

theorem daily_summary_correct_witness :
    daily_summary ⟨2025, 1, 1⟩ ⟨2025, 1, 1⟩ rangeExampleRows = some ⟨3, 12, -2⟩
  ∧ ((Summary3.mk 3 12 (-2)).total_cons =
        ((rangeExampleRows.filter (inRange ⟨2025, 1, 1⟩ ⟨2025, 1, 1⟩)).map
          (·.consumption)).sum
    ∧ (Summary3.mk 3 12 (-2)).total_prod =
        ((rangeExampleRows.filter (inRange ⟨2025, 1, 1⟩ ⟨2025, 1, 1⟩)).map
          (·.production)).sum
    ∧ (Summary3.mk 3 12 (-2)).avg_temp =
        (((rangeExampleRows.filter (inRange ⟨2025, 1, 1⟩ ⟨2025, 1, 1⟩)).filter
            isMidnight).map (·.average_temp)).sum /
          ((((rangeExampleRows.filter (inRange ⟨2025, 1, 1⟩ ⟨2025, 1, 1⟩)).filter
            isMidnight).length : ℚ))) :=
  ⟨by decide,
   daily_summary_correct ⟨2025, 1, 1⟩ ⟨2025, 1, 1⟩ rangeExampleRows
     ⟨3, 12, -2⟩ (by decide)⟩

/-- Claim C8: for a month number `m` in 1..12, the month report's total
consumption equals the sum of the consumption field over exactly the rows
whose timestamp's month component equals `m`, regardless of the rows' year
and independent of rows in other months. -/
theorem monthly_summary_correct (m : Nat) (data : List FRow) (out : Summary3)
    (hm : 1 ≤ m ∧ m ≤ 12) (h : monthly_summary m data = some out) :
    out.total_cons = ((data.filter (monthIs m)).map (·.consumption)).sum := by
  simp only [monthly_summary, accumulate_spec] at h
  split at h
  · exact Option.noConfusion h
  · rw [if_pos hm.2, Option.some.injEq] at h
    subst h
    rfl

/-- A data set mixing January rows of two different years with a February
row, for the month-filter witness. -/
def monthExampleRows : List FRow :=
  [⟨⟨2025, 1, 1, 0, 0⟩, 1, 0, 0⟩, ⟨⟨2024, 1, 15, 0, 0⟩, 10, 0, 0⟩,
   ⟨⟨2025, 2, 1, 0, 0⟩, 100, 0, 0⟩]

theorem monthly_summary_correct_witness :
    (1 ≤ 1 ∧ 1 ≤ 12)
  ∧ monthly_summary 1 monthExampleRows = some ⟨11, 0, 0⟩
  ∧ (Summary3.mk 11 0 0).total_cons =
      ((monthExampleRows.filter (monthIs 1)).map (·.consumption)).sum :=
  ⟨by decide, by decide,
   monthly_summary_correct 1 monthExampleRows ⟨11, 0, 0⟩ (by decide) (by decide)⟩

/-- Claim C10: the yearly report requires a non-empty data list — on the
empty list `yearly_summary` fails (models the `IndexError` of
`data_list[0]`) and produces no summary; whenever it does produce a
summary for a non-empty list, the year label is the first sample's year. -/
theorem yearly_summary_first_row_year :
    yearly_summary [] = none
  ∧ ∀ (r : FRow) (rest : List FRow) (out : YSummary),
      yearly_summary (r :: rest) = some out →
      out.year = r.timestamp.date.year := by
  refine ⟨rfl, ?_⟩
  intro r rest out h
  simp only [yearly_summary] at h
  split at h
  · exact Option.noConfusion h
  · rw [Option.some.injEq] at h
    subst h
    rfl

theorem yearly_summary_first_row_year_witness :
    yearly_summary [⟨⟨2025, 3, 4, 0, 0⟩, 1, 2, 3⟩] = some ⟨2025, 1, 2, 3⟩
  ∧ (YSummary.mk 2025 1 2 3).year =
      (FRow.mk ⟨2025, 3, 4, 0, 0⟩ 1 2 3).timestamp.date.year :=
  ⟨by decide,
   yearly_summary_first_row_year.2 (FRow.mk ⟨2025, 3, 4, 0, 0⟩ 1 2 3) []
     (YSummary.mk 2025 1 2 3) (by decide)⟩

/-! ## TaskF `daily_summary_menu`: the two date-collection loops

Each user input line has already been passed through
`datetime.strptime(input, "%d.%m.%Y")`: `some d` is the parsed date,
`none` a `ValueError`.  A loop result of `none` means the input list was
exhausted without an accepted value (the real loop would keep blocking). -/

/-- The start-date loop of `daily_summary_menu`: a parse failure
`continue`s; a parsed date is accepted (`break`) only when its year is
2025, otherwise the loop prints a warning and re-prompts. -/
def startDateLoop : List (Option Date) → Option Date
  | [] => none
  | none :: rest => startDateLoop rest
  | some d :: rest => if d.year = 2025 then some d else startDateLoop rest

/-- The end-date loop of `daily_summary_menu`: a parse failure
`continue`s; for a parsed date, after the year test (and its warning
`print`) control falls through to an unconditional `break`, so the first
successfully parsed date is accepted even when its year is not 2025. -/
def endDateLoop : List (Option Date) → Option Date
  | [] => none
  | none :: rest => endDateLoop rest
  | some d :: _ => some d

/-- Claim C6, evaluated at the failing input: the end-date loop accepts
the parsed date 01.01.2024 although its year is not 2025 (the start-date
loop, as the claim describes, rejects the same input). -/
theorem end_date_loop_accepts_wrong_year :
    endDateLoop [some ⟨2024, 1, 1⟩] = some ⟨2024, 1, 1⟩
  ∧ startDateLoop [some ⟨2024, 1, 1⟩] = none
  ∧ (Date.mk 2024 1 1).year ≠ 2025 := by
  decide

/-! ## Persistence writers -/

/-- The banner TaskE `write_summaries` prepends to the new text when the
output file already exists. -/
def separatorBanner : String := "\n--- (new report begins here) ---\n\n"

/-- File-content semantics of TaskE `write_summaries`' write block:
`open(filename, "x")` writes the text into a fresh file; on
`FileExistsError` the file is opened with `"a"` and
`separatorBanner + text` is appended.  `none` = the file is absent; the
result is the final file content. -/
def write_summaries_fs (text : String) (file : Option String) : String :=
  match file with
  | none => text
  | some prior => prior ++ (separatorBanner ++ text)

/-- File-content semantics of TaskF `write_data_to_file`:
`open(OUT_FILE, "w")` truncates, so the final content is the new text
regardless of the prior state of the file. -/
def write_data_to_file_fs (data_str : String) (_file : Option String) : String :=
  data_str

/-- Claim C1, counterexample: TaskF's `write_data_to_file` truncates.
Writing report "B" over an existing file holding "A" yields "B" — not
"A" ++ banner ++ "B" — and the prior content is not preserved. -/
theorem write_data_to_file_truncates :
    write_data_to_file_fs "B" (some "A") = "B"
  ∧ ¬ write_data_to_file_fs "B" (some "A") = "A" ++ separatorBanner ++ "B"
  ∧ ¬ "A".data.isPrefixOf (write_data_to_file_fs "B" (some "A")).data = true := by
  decide

/-- Claim C1 (amended): TaskE's persistence writer (`write_summaries`)
never truncates — an absent file is created holding exactly the report
text, an existing file keeps its prior bytes unchanged and the new text is
appended after the separating banner, so two successive writes produce
`firstReport ++ separatorBanner ++ secondReport`.  TaskF's
`write_data_to_file`, by contrast, overwrites: the final content is the
new report alone. -/
theorem persistence_semantics :
    (∀ text : String, write_summaries_fs text none = text)
  ∧ (∀ text prior : String,
        write_summaries_fs text (some prior) = prior ++ separatorBanner ++ text)
  ∧ (∀ t1 t2 : String,
        write_summaries_fs t2 (some (write_summaries_fs t1 none)) =
          t1 ++ separatorBanner ++ t2)
  ∧ (∀ (text : String) (file : Option String),
        write_data_to_file_fs text file = text) := by
  refine ⟨fun _ => rfl, fun t p => ?_, fun t1 t2 => ?_, fun _ _ => rfl⟩
  · show p ++ (separatorBanner ++ t) = p ++ separatorBanner ++ t
    rw [String.append_assoc]
  · show t1 ++ (separatorBanner ++ t2) = t1 ++ separatorBanner ++ t2
    rw [String.append_assoc]

/-- Claim C9: the two-decimal decimal-comma numeric rendering is a pure
deterministic function — formatting the same value twice yields
byte-identical text — and formatting 1234.5 yields exactly "1234,50". -/
theorem format2_deterministic :
    (∀ q : ℚ, format2 q = format2 q) ∧ format2 (1234.5 : ℚ) = "1234,50" :=
  ⟨fun _ => rfl, by decide⟩

/-! ## TaskD/TaskE (`task_d.py`, `task_e.py`): daily aggregation -/

/-- A converted CSV row of TaskD/TaskE `convert_data`: timestamp plus six
phase channels (consumption phases 1–3, production phases 1–3), already
scaled from Wh to kWh; floats modelled as `ℚ`. -/
structure SRow where
  ts : Timestamp
  c1 : ℚ
  c2 : ℚ
  c3 : ℚ
  p1 : ℚ
  p2 : ℚ
  p3 : ℚ
deriving DecidableEq

/-- A daily aggregate: the `[current_day, row[1], …, row[6]]` list that
`calculate_daily_totals` appends for each new date. -/
structure DayRow where
  date : Date
  c1 : ℚ
  c2 : ℚ
  c3 : ℚ
  p1 : ℚ
  p2 : ℚ
  p3 : ℚ
deriving DecidableEq

/-- Starting a new daily aggregate from the first row of its date. -/
def initDay (r : SRow) : DayRow :=
  ⟨r.ts.date, r.c1, r.c2, r.c3, r.p1, r.p2, r.p3⟩

/-- `for i in range(1, 7): days_list[daycount][i] += row[i]`: fold one
more same-date row into the current aggregate. -/
def addRow (d : DayRow) (r : SRow) : DayRow :=
  ⟨d.date, d.c1 + r.c1, d.c2 + r.c2, d.c3 + r.c3,
   d.p1 + r.p1, d.p2 + r.p2, d.p3 + r.p3⟩

/-- The loop of `calculate_daily_totals`, with `cur` the last appended
aggregate (whose date is the loop's `current_day` cursor): a row of the
same date is added into `cur`; a row of a different date closes `cur` and
starts a fresh aggregate. -/
def groupDays (cur : DayRow) : List SRow → List DayRow
  | [] => [cur]
  | r :: rest =>
    if r.ts.date = cur.date then groupDays (addRow cur r) rest
    else cur :: groupDays (initDay r) rest

/-- TaskD/TaskE `calculate_daily_totals` (both files define it
identically). -/
def calculate_daily_totals : List SRow → List DayRow
  | [] => []
  | r :: rest => groupDays (initDay r) rest

/-- Does the sample `r` fall on the date `d`? -/
def pdate (d : Date) (r : SRow) : Bool :=
  decide (r.ts.date = d)

/-- Fuel-based recursion computing the distinct elements of a list in
first-seen order (structural in the fuel so the kernel can evaluate it). -/
def fsdAux : Nat → List Date → List Date
  | 0, _ => []
  | _ + 1, [] => []
  | fuel + 1, d :: rest => d :: fsdAux fuel (rest.filter (fun x => decide (x ≠ d)))

/-- The distinct dates of a list, in first-seen order. -/
def firstSeenDates (l : List Date) : List Date :=
  fsdAux l.length l

theorem fsdAux_congr (f1 : Nat) :
    ∀ (f2 : Nat) (l : List Date), l.length ≤ f1 → l.length ≤ f2 →
      fsdAux f1 l = fsdAux f2 l := by
  induction f1 with
  | zero =>
    intro f2 l h1 _
    rw [List.length_eq_zero.mp (Nat.le_zero.mp h1)]
    cases f2 <;> rfl
  | succ n ih =>
    intro f2 l h1 h2
    cases l with
    | nil => cases f2 <;> rfl
    | cons d rest =>
      cases f2 with
      | zero => exact absurd h2 (by simp)
      | succ m =>
        show d :: fsdAux n (rest.filter (fun x => decide (x ≠ d))) =
          d :: fsdAux m (rest.filter (fun x => decide (x ≠ d)))
        rw [ih m _
          (le_trans (List.length_filter_le _ _) (Nat.succ_le_succ_iff.mp h1))
          (le_trans (List.length_filter_le _ _) (Nat.succ_le_succ_iff.mp h2))]

theorem firstSeenDates_cons (d : Date) (rest : List Date) :
    firstSeenDates (d :: rest) =
      d :: firstSeenDates (rest.filter (fun x => decide (x ≠ d))) := by
  show fsdAux (rest.length + 1) (d :: rest) = _
  show d :: fsdAux rest.length (rest.filter (fun x => decide (x ≠ d))) = _
  rw [fsdAux_congr rest.length _ _ (List.length_filter_le _ _) le_rfl]
  rfl

theorem firstSeenDates_mem_nodup :
    ∀ l : List Date,
      (∀ a, a ∈ firstSeenDates l ↔ a ∈ l) ∧ (firstSeenDates l).Nodup := by
  have key : ∀ (fuel : Nat) (l : List Date), l.length ≤ fuel →
      (∀ a, a ∈ firstSeenDates l ↔ a ∈ l) ∧ (firstSeenDates l).Nodup := by
    intro fuel
    induction fuel with
    | zero =>
      intro l hl
      rw [List.length_eq_zero.mp (Nat.le_zero.mp hl)]
      simp [firstSeenDates, fsdAux]
    | succ n ih =>
      intro l hl
      cases l with
      | nil => simp [firstSeenDates, fsdAux]
      | cons d rest =>
        have h1 : (rest.filter (fun x => decide (x ≠ d))).length ≤ n :=
          le_trans (List.length_filter_le _ _) (Nat.succ_le_succ_iff.mp hl)
        obtain ⟨ihmem, ihnd⟩ := ih (rest.filter (fun x => decide (x ≠ d))) h1
        rw [firstSeenDates_cons]
        constructor
        · intro a
          simp only [List.mem_cons, ihmem, List.mem_filter, decide_eq_true_eq]
          constructor
          · rintro (rfl | ⟨h, _⟩)
            · exact Or.inl rfl
            · exact Or.inr h
          · rintro (rfl | h)
            · exact Or.inl rfl
            · by_cases hd : a = d
              · exact Or.inl hd
              · exact Or.inr ⟨h, hd⟩
        · refine List.nodup_cons.mpr ⟨?_, ihnd⟩
          intro hmem
          rcases List.mem_filter.mp ((ihmem d).mp hmem) with ⟨_, hne⟩
          exact (decide_eq_true_eq.mp hne) rfl
  intro l
  exact key l.length l le_rfl

theorem firstSeenDates_length (l : List Date) :
    (firstSeenDates l).length = l.dedup.length := by
  obtain ⟨hmem, hnd⟩ := firstSeenDates_mem_nodup l
  have hfin : (firstSeenDates l).toFinset = l.toFinset := by
    apply Finset.ext
    intro a
    simp [List.mem_toFinset, hmem a]
  calc (firstSeenDates l).length
      = (firstSeenDates l).toFinset.card := (List.toFinset_card_of_nodup hnd).symm
    _ = l.toFinset.card := by rw [hfin]
    _ = l.dedup.length := List.card_toFinset l

theorem initDay_date (r : SRow) : (initDay r).date = r.ts.date := rfl

theorem addRow_date (d : DayRow) (r : SRow) : (addRow d r).date = d.date := rfl

theorem foldl_addRow (l : List SRow) (cur : DayRow) :
    l.foldl addRow cur =
      ⟨cur.date, cur.c1 + (l.map (·.c1)).sum, cur.c2 + (l.map (·.c2)).sum,
       cur.c3 + (l.map (·.c3)).sum, cur.p1 + (l.map (·.p1)).sum,
       cur.p2 + (l.map (·.p2)).sum, cur.p3 + (l.map (·.p3)).sum⟩ := by
  induction l generalizing cur with
  | nil => simp
  | cons r rs ih => simp [List.foldl_cons, ih, addRow, add_assoc]

theorem groupDays_decompose (rest : List SRow) :
    ∀ cur : DayRow, groupDays cur rest =
      ((rest.takeWhile (pdate cur.date)).foldl addRow cur) ::
        calculate_daily_totals (rest.dropWhile (pdate cur.date)) := by
  induction rest with
  | nil => intro cur; rfl
  | cons r rs ih =>
    intro cur
    by_cases h : r.ts.date = cur.date
    · have hp : pdate cur.date r = true := decide_eq_true h
      rw [List.takeWhile_cons_of_pos hp, List.dropWhile_cons_of_pos hp,
          List.foldl_cons]
      have hstep : groupDays cur (r :: rs) = groupDays (addRow cur r) rs := by
        simp [groupDays, h]
      rw [hstep, ih (addRow cur r)]
      rw [addRow_date]
    · have hp : pdate cur.date r = false := by simp [pdate, h]
      have hstep : groupDays cur (r :: rs) = cur :: groupDays (initDay r) rs := by
        simp [groupDays, h]
      rw [hstep, List.takeWhile_cons_of_neg (by simp [hp]),
          List.dropWhile_cons_of_neg (by simp [hp])]
      rfl

theorem sorted_takeWhile_dropWhile (d : Date) :
    ∀ l : List SRow,
      l.Pairwise (fun a b => dle a.ts.date b.ts.date = true) →
      (∀ x ∈ l, dle d x.ts.date = true) →
      l.takeWhile (pdate d) = l.filter (pdate d) ∧
      l.dropWhile (pdate d) = l.filter (fun r => ! pdate d r) := by
  intro l
  induction l with
  | nil => intro _ _; exact ⟨rfl, rfl⟩
  | cons x xs ih =>
    intro hsort hge
    obtain ⟨hx, hxs⟩ := List.pairwise_cons.mp hsort
    by_cases hpd : pdate d x = true
    · obtain ⟨iht, ihd⟩ := ih hxs (fun y hy => hge y (List.mem_cons_of_mem _ hy))
      refine ⟨?_, ?_⟩
      · rw [List.takeWhile_cons_of_pos hpd, List.filter_cons_of_pos hpd, iht]
      · rw [List.dropWhile_cons_of_pos hpd, ihd,
            List.filter_cons_of_neg (by simp [hpd])]
    · have hxd : x.ts.date ≠ d := fun hh => hpd (decide_eq_true hh)
      have hdx : dle d x.ts.date = true := hge x (List.mem_cons_self x xs)
      have hnone : ∀ y ∈ xs, pdate d y = false := by
        intro y hy
        by_contra hc
        have hyd : y.ts.date = d :=
          decide_eq_true_eq.mp (Bool.of_not_eq_false hc)
        have h1 : dle x.ts.date y.ts.date = true := hx y hy
        rw [hyd] at h1
        exact hxd (dle_antisymm h1 hdx)
      have hpd' : pdate d x = false := Bool.of_not_eq_true hpd
      refine ⟨?_, ?_⟩
      · rw [List.takeWhile_cons_of_neg (by simp [hpd']),
            List.filter_cons_of_neg (by simp [hpd'])]
        symm
        rw [List.filter_eq_nil_iff]
        intro y hy
        simp [hnone y hy]
      · rw [List.dropWhile_cons_of_neg (by simp [hpd']),
            List.filter_cons_of_pos (by simp [hpd'])]
        congr 1
        symm
        rw [List.filter_eq_self]
        intro y hy
        simp [hnone y hy]

theorem calc_daily_aux :
    ∀ (n : Nat) (rows : List SRow), rows.length ≤ n →
      rows.Pairwise (fun a b => dle a.ts.date b.ts.date = true) →
      ((calculate_daily_totals rows).map (·.date) =
          firstSeenDates (rows.map (·.ts.date))
        ∧ ∀ d ∈ calculate_daily_totals rows,
            d.c1 = ((rows.filter (pdate d.date)).map (·.c1)).sum
          ∧ d.c2 = ((rows.filter (pdate d.date)).map (·.c2)).sum
          ∧ d.c3 = ((rows.filter (pdate d.date)).map (·.c3)).sum
          ∧ d.p1 = ((rows.filter (pdate d.date)).map (·.p1)).sum
          ∧ d.p2 = ((rows.filter (pdate d.date)).map (·.p2)).sum
          ∧ d.p3 = ((rows.filter (pdate d.date)).map (·.p3)).sum) := by
  intro n
  induction n with
  | zero =>
    intro rows hl _
    rw [List.length_eq_zero.mp (Nat.le_zero.mp hl)]
    exact ⟨rfl, fun d hd => absurd hd (List.not_mem_nil d)⟩
  | succ n ih =>
    intro rows hl hsort
    cases rows with
    | nil => exact ⟨rfl, fun d hd => absurd hd (List.not_mem_nil d)⟩
    | cons r rest =>
      obtain ⟨hx, hrest⟩ := List.pairwise_cons.mp hsort
      obtain ⟨htw, hdw⟩ := sorted_takeWhile_dropWhile r.ts.date rest hrest hx
      have hdec : calculate_daily_totals (r :: rest) =
          ((rest.filter (pdate r.ts.date)).foldl addRow (initDay r)) ::
            calculate_daily_totals (rest.filter (fun s => ! pdate r.ts.date s)) := by
        show groupDays (initDay r) rest = _
        rw [groupDays_decompose rest (initDay r), initDay_date, htw, hdw]
      have hdifflen : (rest.filter (fun s => ! pdate r.ts.date s)).length ≤ n :=
        le_trans (List.length_filter_le _ _) (Nat.succ_le_succ_iff.mp hl)
      have hdiffsort : (rest.filter (fun s => ! pdate r.ts.date s)).Pairwise
          (fun a b => dle a.ts.date b.ts.date = true) :=
        List.Pairwise.sublist (List.filter_sublist rest) hrest
      obtain ⟨ih1, ih3⟩ := ih _ hdifflen hdiffsort
      have hhead := foldl_addRow (rest.filter (pdate r.ts.date)) (initDay r)
      have hheaddate :
          ((rest.filter (pdate r.ts.date)).foldl addRow (initDay r)).date =
            r.ts.date := by
        rw [hhead]
        rfl
      have hmapfilter :
          (rest.filter (fun s => ! pdate r.ts.date s)).map (·.ts.date) =
            (rest.map (·.ts.date)).filter (fun x => decide (x ≠ r.ts.date)) := by
        rw [List.filter_map]
        congr 1
        apply List.filter_congr
        intro s _
        simp [pdate, Function.comp, decide_not]
      have hdates : (calculate_daily_totals (r :: rest)).map (·.date) =
          firstSeenDates ((r :: rest).map (·.ts.date)) := by
        rw [hdec, List.map_cons, hheaddate, ih1, hmapfilter, List.map_cons,
            firstSeenDates_cons]
      refine ⟨hdates, ?_⟩
      intro d hd
      rw [hdec] at hd
      rcases List.mem_cons.mp hd with rfl | hdtail
      · have hpr : pdate r.ts.date r = true := decide_eq_true rfl
        rw [hhead]
        refine ⟨?_, ?_, ?_, ?_, ?_, ?_⟩ <;>
          simp [List.filter_cons_of_pos hpr, initDay]
      · obtain ⟨hc1, hc2, hc3, hp1, hp2, hp3⟩ := ih3 d hdtail
        have hdne : d.date ≠ r.ts.date := by
          have hmemmap : d.date ∈ (calculate_daily_totals
              (rest.filter (fun s => ! pdate r.ts.date s))).map (·.date) :=
            List.mem_map_of_mem _ hdtail
          rw [ih1] at hmemmap
          have hmem2 := ((firstSeenDates_mem_nodup _).1 _).mp hmemmap
          rcases List.mem_map.mp hmem2 with ⟨y, hy, hyd⟩
          rcases List.mem_filter.mp hy with ⟨_, hny⟩
          have hne : y.ts.date ≠ r.ts.date := by simpa [pdate] using hny
          intro hcontra
          exact hne (hyd.trans hcontra)
        have hfilterhead : pdate d.date r = false := by
          simp only [pdate, decide_eq_false_iff_not]
          exact fun hh => hdne hh.symm
        have hfilter : (r :: rest).filter (pdate d.date) =
            (rest.filter (fun s => ! pdate r.ts.date s)).filter (pdate d.date) := by
          rw [List.filter_cons_of_neg (by simp [hfilterhead]),
              List.filter_filter]
          apply List.filter_congr
          intro a _
          by_cases hpa : pdate d.date a = true
          · have had : a.ts.date = d.date := decide_eq_true_eq.mp hpa
            have : pdate r.ts.date a = false := by
              simp only [pdate, decide_eq_false_iff_not]
              rw [had]
              exact hdne
            simp [hpa, this]
          · simp [Bool.of_not_eq_true hpa]
        rw [hfilter]
        exact ⟨hc1, hc2, hc3, hp1, hp2, hp3⟩

/-- Claim C4: for a sample sequence whose timestamps are sorted by date
(non-decreasing), the daily aggregator's output has one aggregate per
distinct date of the input (its length is the number of distinct dates),
the aggregates appear in first-seen date order, and each aggregate's six
channel values are the per-channel sums over exactly the input samples
sharing that aggregate's date. -/
theorem calculate_daily_totals_correct (rows : List SRow)
    (hsort : rows.Pairwise (fun a b => dle a.ts.date b.ts.date = true)) :
    (calculate_daily_totals rows).map (·.date) =
        firstSeenDates (rows.map (·.ts.date))
  ∧ (calculate_daily_totals rows).length =
      (rows.map (·.ts.date)).dedup.length
  ∧ ∀ d ∈ calculate_daily_totals rows,
        d.c1 = ((rows.filter (pdate d.date)).map (·.c1)).sum
      ∧ d.c2 = ((rows.filter (pdate d.date)).map (·.c2)).sum
      ∧ d.c3 = ((rows.filter (pdate d.date)).map (·.c3)).sum
      ∧ d.p1 = ((rows.filter (pdate d.date)).map (·.p1)).sum
      ∧ d.p2 = ((rows.filter (pdate d.date)).map (·.p2)).sum
      ∧ d.p3 = ((rows.filter (pdate d.date)).map (·.p3)).sum := by
  obtain ⟨h1, h3⟩ := calc_daily_aux rows.length rows le_rfl hsort
  refine ⟨h1, ?_, h3⟩
  rw [← firstSeenDates_length, ← h1, List.length_map]

/-- Two samples on 2025-10-06 (midnight and noon) followed by one on
2025-10-07, sorted by date — the grouping witness data. -/
def dayExampleRows : List SRow :=
  [⟨⟨2025, 10, 6, 0, 0⟩, 1, 2, 3, 4, 5, 6⟩,
   ⟨⟨2025, 10, 6, 12, 0⟩, 10, 20, 30, 40, 50, 60⟩,
   ⟨⟨2025, 10, 7, 1, 0⟩, 7, 7, 7, 7, 7, 7⟩]

theorem calculate_daily_totals_correct_witness :
    dayExampleRows.Pairwise (fun a b => dle a.ts.date b.ts.date = true)
  ∧ ((calculate_daily_totals dayExampleRows).map (·.date) =
        firstSeenDates (dayExampleRows.map (·.ts.date))
    ∧ (calculate_daily_totals dayExampleRows).length =
        (dayExampleRows.map (·.ts.date)).dedup.length
    ∧ ∀ d ∈ calculate_daily_totals dayExampleRows,
          d.c1 = ((dayExampleRows.filter (pdate d.date)).map (·.c1)).sum
        ∧ d.c2 = ((dayExampleRows.filter (pdate d.date)).map (·.c2)).sum
        ∧ d.c3 = ((dayExampleRows.filter (pdate d.date)).map (·.c3)).sum
        ∧ d.p1 = ((dayExampleRows.filter (pdate d.date)).map (·.p1)).sum
        ∧ d.p2 = ((dayExampleRows.filter (pdate d.date)).map (·.p2)).sum
        ∧ d.p3 = ((dayExampleRows.filter (pdate d.date)).map (·.p3)).sum) :=
  ⟨by decide, calculate_daily_totals_correct dayExampleRows (by decide)⟩

/-! ## TaskE `write_summaries`: weekly banner blocks and period totals -/

/-- The running period totals of `write_summaries`, one field per
`total_*` variable of the source. -/
structure WTotals where
  total_cons_p1 : ℚ
  total_cons_p2 : ℚ
  total_cons_p3 : ℚ
  total_prod_p1 : ℚ
  total_prod_p2 : ℚ
  total_prod_p3 : ℚ
deriving DecidableEq

/-- The loop state of `write_summaries`: the accumulated `weekly_summary`
string, the running totals, and the current `week_number`. -/
structure WState where
  weekly_summary : String
  totals : WTotals
  week_number : Nat

/-- The title + two column-header lines + separator block emitted before
each Monday row. -/
def weekBanner (week_number : Nat) : String :=
  "Week " ++ natToStr week_number ++
    " electricity consumption and production (kWh, by phase)" ++
  "\nDay           Date           Consumption [kWh]              Production [kWh]" ++
  "\n            (dd.mm.yyyy)    v1       v2      v3            v1      v2      v3" ++
  "\n------------------------------------------------------------------------------"

/-- One iteration of the `write_summaries` loop over a daily-totals row:
accumulate the six running totals exactly as the source lines 144–150 do
(`total_cons_p3` receives `cons_p3` and then also `prod_p3`, and no
statement adds into `total_prod_p3`), then before a Monday row emit a
banner block — preceded by a blank line unless the summary is still
empty — bump the week number, and finally append the formatted data row. -/
def wStep (st : WState) (row : DayRow) : WState :=
  let weekday := row.date.weekday
  let t := st.totals
  let totals' : WTotals :=
    ⟨t.total_cons_p1 + row.c1, t.total_cons_p2 + row.c2,
     t.total_cons_p3 + row.c3 + row.p3,
     t.total_prod_p1 + row.p1, t.total_prod_p2 + row.p2,
     t.total_prod_p3⟩
  let s1 :=
    if weekday = 0 then
      (if st.weekly_summary ≠ "" then st.weekly_summary ++ "\n\n"
       else st.weekly_summary) ++ weekBanner st.week_number
    else st.weekly_summary
  let wn1 := if weekday = 0 then st.week_number + 1 else st.week_number
  let dataRow :=
    "\n" ++ padR (WEEKDAYS.getD weekday "") 12 ++ padR (formatDate row.date) 12 ++
    padL (format2 row.c1) 8 ++ padL (format2 row.c2) 8 ++ padL (format2 row.c3) 8 ++
    padL (format2 row.p1) 14 ++ padL (format2 row.p2) 8 ++ padL (format2 row.p3) 8
  ⟨s1 ++ dataRow, totals', wn1⟩

/-- The `write_summaries` loop over all daily totals, starting from an
empty summary, zero totals and the caller-supplied base week number. -/
def write_summaries_loop (daily_totals : List DayRow) (week_number : Nat) :
    WState :=
  daily_totals.foldl wStep ⟨"", ⟨0, 0, 0, 0, 0, 0⟩, week_number⟩

/-- The full report string built by `write_summaries` (what gets written
to the file): the weekly table followed by the whole-period summary
block. -/
def write_summaries_text (daily_totals : List DayRow) (week_number : Nat) :
    String :=
  let st := write_summaries_loop daily_totals week_number
  let t := st.totals
  st.weekly_summary ++
  "\n\nSummary of the entire period by phase:" ++
  "\n   Consumption [kWh]              Production [kWh]" ++
  "\n  v1       v2      v3            v1      v2      v3" ++
  "\n----------------------------------------------------" ++
  "\n" ++ format2 t.total_cons_p1 ++ padL (format2 t.total_cons_p2) 8 ++
  padL (format2 t.total_cons_p3) 8 ++ padL (format2 t.total_prod_p1) 14 ++
  padL (format2 t.total_prod_p2) 8 ++ padL (format2 t.total_prod_p3) 8 ++ "\n"

/-- The number of occurrences of `pat` in the character list (counted at
every start position). -/
def countOcc (pat : List Char) : List Char → Nat
  | [] => 0
  | c :: rest => (if pat.isPrefixOf (c :: rest) then 1 else 0) + countOcc pat rest

/-- The number of occurrences of the pattern `pat` in the string `s`. -/
def countSubstr (s pat : String) : Nat :=
  countOcc pat.data s.data

/-- Ten consecutive daily aggregates 2025-10-01 (a Wednesday) through
2025-10-10, with all channel values zero. -/
def tenDays : List DayRow :=
  [⟨⟨2025, 10, 1⟩, 0, 0, 0, 0, 0, 0⟩, ⟨⟨2025, 10, 2⟩, 0, 0, 0, 0, 0, 0⟩,
   ⟨⟨2025, 10, 3⟩, 0, 0, 0, 0, 0, 0⟩, ⟨⟨2025, 10, 4⟩, 0, 0, 0, 0, 0, 0⟩,
   ⟨⟨2025, 10, 5⟩, 0, 0, 0, 0, 0, 0⟩, ⟨⟨2025, 10, 6⟩, 0, 0, 0, 0, 0, 0⟩,
   ⟨⟨2025, 10, 7⟩, 0, 0, 0, 0, 0, 0⟩, ⟨⟨2025, 10, 8⟩, 0, 0, 0, 0, 0, 0⟩,
   ⟨⟨2025, 10, 9⟩, 0, 0, 0, 0, 0, 0⟩, ⟨⟨2025, 10, 10⟩, 0, 0, 0, 0, 0, 0⟩]

/-- Claim C2, the code evaluated at the failing input: for a single daily
aggregate whose consumption-phase-3 value is 0 and whose
production-phase-3 value is 5, `write_summaries`' grand totals give
consumption-phase-3 = 5 (it absorbed the production value through
`total_cons_p3 += prod_p3`) and production-phase-3 = 0, contradicting the
claim that each channel's grand total sums only its own values (which
would give 0 and 5 respectively). -/
theorem write_summaries_totals_slip :
    (write_summaries_loop [⟨⟨2025, 10, 6⟩, 0, 0, 0, 0, 0, 5⟩] 41).totals.total_cons_p3
        = 5
  ∧ (write_summaries_loop [⟨⟨2025, 10, 6⟩, 0, 0, 0, 0, 0, 5⟩] 41).totals.total_prod_p3
        = 0 := by
  decide

set_option maxRecDepth 100000 in
/-- Claim C5, counterexample: for the 10 consecutive daily aggregates
2025-10-01 (a Wednesday) through 2025-10-10 with base week number 41, the
emitted summary contains exactly 1 week-banner block, not 2 — the 10-day
span contains a single Monday (2025-10-06). -/
theorem week_banner_count_counterexample :
    countSubstr (write_summaries_text tenDays 41) "Week " = 1
  ∧ ¬ countSubstr (write_summaries_text tenDays 41) "Week " = 2 := by
  decide

set_option maxRecDepth 100000 in
/-- Claim C5 (amended): given 10 consecutive daily aggregates starting on
a Wednesday (2025-10-01 … 2025-10-10) and base week number 41, exactly 1
week-banner block (title + header + separator) is emitted — for the single
Monday contained in the 10-day span — labeled with the base week number
41; no "Week 42" banner appears, and the banner block is preceded by the
blank-line separator, since the five pre-Monday data rows precede it. -/
theorem week_banner_count :
    countSubstr (write_summaries_text tenDays 41) "Week " = 1
  ∧ countSubstr (write_summaries_text tenDays 41) "\n\nWeek 41 electricity" = 1
  ∧ countSubstr (write_summaries_text tenDays 41) "Week 42" = 0 := by
  decide

